import Mathlib

/-!
Verification of the Zscaler-to-Illumio IPList updater
(`update_zscaler_iplist.py`).

The script is a single linear pipeline: fetch a list of CIDR strings from
the Zscaler endpoint, compare it with the ranges stored in an Illumio
IPList, create or update the IPList when the contents differ, and finally
provision the change (best effort).  This file gives a shallow embedding of
that pipeline and proves the specified properties about it.

Python's `sorted` on strings orders lexicographically by Unicode code
points.  We model that order by an executable lexicographic comparator on
the character lists of the strings and model `sorted` as insertion sort;
since the order is total, transitive and antisymmetric, the sorted
permutation of a list is unique, so any correct sorting algorithm produces
the same output list.
-/

/-- Lexicographic less-or-equal on character lists, comparing Unicode code
points, matching Python's string comparison. -/
def leChars : List Char → List Char → Bool
  | [], _ => true
  | _ :: _, [] => false
  | a :: as, b :: bs =>
      if a.toNat < b.toNat then true
      else if b.toNat < a.toNat then false
      else leChars as bs

/-- Python's `<=` on strings: lexicographic comparison by code points. -/
def strLe (a b : String) : Bool := leChars a.data b.data

/-- The propositional form of `strLe`, used as the sorting relation. -/
def StrLeRel (a b : String) : Prop := strLe a b = true

instance : DecidableRel StrLeRel :=
  fun a b => inferInstanceAs (Decidable (strLe a b = true))

theorem leChars_cons_iff (a b : Char) (as bs : List Char) :
    leChars (a :: as) (b :: bs) = true ↔
      a.toNat < b.toNat ∨ (a.toNat = b.toNat ∧ leChars as bs = true) := by
  by_cases h1 : a.toNat < b.toNat
  · simp [leChars, h1]
  · by_cases h2 : b.toNat < a.toNat
    · simp only [leChars, if_neg h1, if_pos h2]
      constructor
      · intro h; exact absurd h (by simp)
      · rintro (h | ⟨h, _⟩) <;> omega
    · have he : a.toNat = b.toNat := by omega
      simp [leChars, h1, h2, he]

theorem leChars_total (x y : List Char) : leChars x y = true ∨ leChars y x = true := by
  induction x generalizing y with
  | nil => exact Or.inl rfl
  | cons a as ih =>
    cases y with
    | nil => exact Or.inr rfl
    | cons b bs =>
      rw [leChars_cons_iff, leChars_cons_iff]
      rcases Nat.lt_trichotomy a.toNat b.toNat with h | h | h
      · exact Or.inl (Or.inl h)
      · rcases ih bs with htl | htl
        · exact Or.inl (Or.inr ⟨h, htl⟩)
        · exact Or.inr (Or.inr ⟨h.symm, htl⟩)
      · exact Or.inr (Or.inl h)

theorem leChars_trans (x y z : List Char) (hxy : leChars x y = true)
    (hyz : leChars y z = true) : leChars x z = true := by
  induction x generalizing y z with
  | nil => rfl
  | cons a as ih =>
    cases y with
    | nil => simp [leChars] at hxy
    | cons b bs =>
      cases z with
      | nil => simp [leChars] at hyz
      | cons c cs =>
        rw [leChars_cons_iff] at hxy hyz ⊢
        rcases hxy with hab | ⟨hab, htab⟩ <;> rcases hyz with hbc | ⟨hbc, htbc⟩
        · exact Or.inl (by omega)
        · exact Or.inl (by omega)
        · exact Or.inl (by omega)
        · exact Or.inr ⟨by omega, ih bs cs htab htbc⟩

theorem leChars_antisymm (x y : List Char) (hxy : leChars x y = true)
    (hyx : leChars y x = true) : x = y := by
  induction x generalizing y with
  | nil =>
    cases y with
    | nil => rfl
    | cons b bs => simp [leChars] at hyx
  | cons a as ih =>
    cases y with
    | nil => simp [leChars] at hxy
    | cons b bs =>
      rw [leChars_cons_iff] at hxy hyx
      rcases hxy with hab | ⟨hab, htab⟩ <;> rcases hyx with hba | ⟨hba, htba⟩
      · omega
      · omega
      · omega
      · have hc : a = b := Char.ext (UInt32.ext hab)
        rw [hc, ih bs htab htba]

instance : IsTotal String StrLeRel :=
  ⟨fun a b => leChars_total a.data b.data⟩

instance : IsTrans String StrLeRel :=
  ⟨fun a b c => leChars_trans a.data b.data c.data⟩

instance : IsAntisymm String StrLeRel :=
  ⟨fun a b h h2 => String.ext (leChars_antisymm a.data b.data h h2)⟩

/-- Model of Python's `sorted` on a list of strings (lexicographic
code-point order).  Implemented as insertion sort, which produces the same
output as any correct sort for this total antisymmetric order. -/
def sortStr (l : List String) : List String := List.insertionSort StrLeRel l

theorem sortStr_perm (l : List String) : (sortStr l).Perm l :=
  List.perm_insertionSort StrLeRel l

theorem sortStr_sorted (l : List String) : List.Sorted StrLeRel (sortStr l) :=
  List.sorted_insertionSort StrLeRel l

theorem sortStr_eq_of_perm {l₁ l₂ : List String} (h : l₁.Perm l₂) :
    sortStr l₁ = sortStr l₂ :=
  List.eq_of_perm_of_sorted
    (((sortStr_perm l₁).trans h).trans (sortStr_perm l₂).symm)
    (sortStr_sorted l₁) (sortStr_sorted l₂)

theorem sortStr_toFinset (l : List String) : (sortStr l).toFinset = l.toFinset := by
  rw [List.toFinset.ext_iff]
  exact fun x => (sortStr_perm l).mem_iff

/-! ## Data model of the Illumio objects used by the script -/

/-- Model of an illumio `IPRange` object: the script only ever reads and
writes the `from_ip` attribute (`None` when absent). -/
structure IPRange where
  from_ip : Option String
deriving DecidableEq

/-- Python truthiness of a `from_ip` attribute value: `None` and the empty
string are falsy, every other string is truthy. -/
def truthyIp : Option String → Bool
  | none => false
  | some s => s != ""

/-- The list built on line 65 of the script:
`sorted([ip_range.from_ip for ip_range in existing_ip_ranges if ip_range.from_ip])`. -/
def existingIps (existing_ip_ranges : List IPRange) : List String :=
  sortStr ((existing_ip_ranges.filter fun r => truthyIp r.from_ip).filterMap
    fun r => r.from_ip)

/-- The list built on line 68 of the script: `sorted(new_ip_ranges)`. -/
def newIps (new_ip_ranges : List String) : List String := sortStr new_ip_ranges

/-- Model of `compare_ip_ranges` (lines 53-106): returns `true` when the
sorted existing `from_ip` values differ from the sorted new range strings. -/
def compare_ip_ranges (existing_ip_ranges : List IPRange)
    (new_ip_ranges : List String) : Bool :=
  decide (existingIps existing_ip_ranges ≠ newIps new_ip_ranges)

/-- The diagnostic set `added = new_set - existing_set` computed on line 81
of the script (only displayed when the comparison found a difference). -/
def diffAdded (existing_ip_ranges : List IPRange)
    (new_ip_ranges : List String) : Finset String :=
  (newIps new_ip_ranges).toFinset \ (existingIps existing_ip_ranges).toFinset

/-- The diagnostic set `removed = existing_set - new_set` computed on line
82 of the script. -/
def diffRemoved (existing_ip_ranges : List IPRange)
    (new_ip_ranges : List String) : Finset String :=
  (existingIps existing_ip_ranges).toFinset \ (newIps new_ip_ranges).toFinset

example : compare_ip_ranges [⟨some "1.1.1.0/24"⟩, ⟨some "2.2.2.0/24"⟩]
    ["2.2.2.0/24", "3.3.3.0/24"] = true := by decide

example : compare_ip_ranges [⟨some "1.1.1.0/24"⟩, ⟨some "2.2.2.0/24"⟩]
    ["2.2.2.0/24", "1.1.1.0/24"] = false := by decide

/-! ## Model of the fetch step -/

/-- Abstract outcome of the single HTTP GET against the fixed Zscaler URL.
`transportError` covers the cases caught as `requests.exceptions.RequestException`
(timeout, connection error, and the non-success statuses surfaced by
`raise_for_status`); `jsonError` covers the `ValueError` raised by
`response.json()` on a malformed body; otherwise the parsed body may or may
not carry a `prefixes` field holding a list of CIDR strings. -/
structure HttpResponse where
  transportError : Bool
  jsonError : Bool
  prefixes : Option (List String)
deriving DecidableEq

/-- Result of a pipeline step: either the process terminated via
`sys.exit code` (after a diagnostic on stderr), or a value was returned.
`stderrDiag` records whether a diagnostic was written to the error stream. -/
structure FetchOut where
  stderrDiag : Bool
  result : Except Nat (List String)

/-- Model of `fetch_zscaler_ips` (lines 27-50): transport errors and JSON
parse errors print to stderr and call `sys.exit(1)`; otherwise the function
returns `data.get('prefixes', [])`, so a body without the field yields `[]`. -/
def fetch_zscaler_ips (r : HttpResponse) : FetchOut :=
  if r.transportError then ⟨true, .error 1⟩
  else if r.jsonError then ⟨true, .error 1⟩
  else ⟨false, .ok (r.prefixes.getD [])⟩

/-! ## Model of the PCE client and the reconcile / provision steps

The Illumio PCE (policy compute engine) is an external collaborator.  Each
of its operations is modelled by the outcome the environment returns for
it, `none` meaning the call raised an exception; the calls the script
issues are recorded in order so that theorems can talk about which API
operations a run performs. -/

/-- Model of an illumio `IPList` object: the attributes the script reads or
writes.  Objects freshly built by the script carry no `href`. -/
structure IPList where
  href : Option String
  name : String
  description : String
  ip_ranges : Option (List IPRange)
deriving DecidableEq

/-- One PCE API call issued by the script, with its payload. -/
inductive PCECall where
  | search (name : String)
  | create (spec : IPList)
  | update (href : Option String) (spec : IPList)
  | getByRef (href : Option String)
  | provision (change_description : String) (hrefs : List (Option String))
deriving DecidableEq

/-- Model of the changeset object returned by a successful
`provision_policy_changes` call on the PCE client. -/
structure Changeset where
  version : Nat
  workloads_affected : Nat
deriving DecidableEq

/-- Environment: the outcome of each PCE operation the script may invoke.
`none` models the call raising an exception.  For `update`, the script
ignores the returned value (which may itself be `None`), hence the nested
option. -/
structure PCEEnv where
  searchResult : Option (List IPList)
  updateResult : Option (Option IPList)
  refetchResult : Option IPList
  createResult : Option IPList
  provisionResult : Option Changeset
deriving DecidableEq

/-- Line 130 of the script: wrap each new CIDR string in an `IPRange`
object via `IPRange(from_ip=ip_range)`. -/
def ip_ranges_objects (ip_ranges : List String) : List IPRange :=
  ip_ranges.map fun r => { from_ip := some r }

/-- The `IPList` payload the script builds for both the update call (lines
151-155) and the create call (lines 171-175): the requested name, the fixed
descriptive label, and the full new range set. -/
def iplistPayload (iplist_name : String) (ip_ranges : List String) : IPList :=
  { href := none
    name := iplist_name
    description := "Zscaler IP ranges - Auto-updated"
    ip_ranges := some (ip_ranges_objects ip_ranges) }

/-- Model of `create_or_update_iplist` (lines 109-183).  Returns the list
of PCE calls issued, and either `error 1` (the whole body is wrapped in a
try/except that prints to stderr and exits 1) or the returned pair
`(iplist, was_updated)`. -/
def create_or_update_iplist (pce : PCEEnv) (iplist_name : String)
    (ip_ranges : List String) : List PCECall × Except Nat (IPList × Bool) :=
  match pce.searchResult with
  | none => ([.search iplist_name], .error 1)
  | some iplists =>
    match iplists with
    | existing_iplist :: _ =>
      let existing_ip_ranges := existing_iplist.ip_ranges.getD []
      let needs_update := compare_ip_ranges existing_ip_ranges ip_ranges
      if needs_update then
        let updated_iplist_data := iplistPayload iplist_name ip_ranges
        match pce.updateResult with
        | none =>
            ([.search iplist_name, .update existing_iplist.href updated_iplist_data],
             .error 1)
        | some _ =>
          match pce.refetchResult with
          | none =>
              ([.search iplist_name, .update existing_iplist.href updated_iplist_data,
                .getByRef existing_iplist.href], .error 1)
          | some updated_iplist =>
              ([.search iplist_name, .update existing_iplist.href updated_iplist_data,
                .getByRef existing_iplist.href], .ok (updated_iplist, true))
      else
        ([.search iplist_name], .ok (existing_iplist, false))
    | [] =>
      let new_iplist_data := iplistPayload iplist_name ip_ranges
      match pce.createResult with
      | none => ([.search iplist_name, .create new_iplist_data], .error 1)
      | some new_iplist =>
          ([.search iplist_name, .create new_iplist_data], .ok (new_iplist, true))

/-- Model of `provision_policy_changes` (lines 185-199).  The call is always
attempted; a failure is caught, a diagnostic is printed to stderr (the
returned boolean), and the function returns normally in both cases. -/
def provision_policy_changes (pce : PCEEnv) (iplist_href : Option String) :
    List PCECall × Bool :=
  let change_description := "Provision Zscaler IPList: " ++ iplist_href.getD "None"
  match pce.provisionResult with
  | some _ => ([.provision change_description [iplist_href]], false)
  | none => ([.provision change_description [iplist_href]], true)

/-- Outcome of one run of the reconcile-and-provision portion of `main`
(lines 319-328): the PCE calls issued, whether the provision step wrote a
diagnostic to stderr, and the exit outcome — `error code` for `sys.exit`,
`ok was_updated` for a normal exit with status 0. -/
structure MainOut where
  calls : List PCECall
  provisionErrDiag : Bool
  result : Except Nat Bool

/-- Model of the tail of `main` (lines 319-328): run
`create_or_update_iplist`, then provision exactly when `was_updated`
is true; the script then completes successfully (exit status 0) whether or
not the provision step failed. -/
def main_run (pce : PCEEnv) (iplist_name : String) (ip_ranges : List String) :
    MainOut :=
  match create_or_update_iplist pce iplist_name ip_ranges with
  | (calls, .error c) => ⟨calls, false, .error c⟩
  | (calls, .ok (iplist, was_updated)) =>
    if was_updated then
      let p := provision_policy_changes pce iplist.href
      ⟨calls ++ p.1, p.2, .ok true⟩
    else
      ⟨calls, false, .ok false⟩

/-! ## Call classifiers -/

/-- A call that writes to the PCE: create or update. -/
def isWriteCall : PCECall → Bool
  | .create _ => true
  | .update _ _ => true
  | _ => false

/-- Recognizes a create call. -/
def isCreateCall : PCECall → Bool
  | .create _ => true
  | _ => false

/-- Recognizes an update call. -/
def isUpdateCall : PCECall → Bool
  | .update _ _ => true
  | _ => false

/-- Recognizes a provision call. -/
def isProvisionCall : PCECall → Bool
  | .provision _ _ => true
  | _ => false

/-- The write calls (create/update) among a run's recorded calls. -/
def writeCalls (calls : List PCECall) : List PCECall := calls.filter isWriteCall

/-- The provision calls among a run's recorded calls. -/
def provisionCalls (calls : List PCECall) : List PCECall :=
  calls.filter isProvisionCall

/-! ## Sample objects and environments used in concrete instantiations -/

/-- A stored IPList holding two ranges. -/
def iplistSample : IPList :=
  { href := some "/orgs/1/sec_policy/draft/ip_lists/1"
    name := "Zscaler IPs"
    description := "Zscaler IP ranges - Auto-updated"
    ip_ranges := some [⟨some "1.1.1.0/24"⟩, ⟨some "2.2.2.0/24"⟩] }

/-- A stored IPList holding the same range twice. -/
def iplistDup : IPList :=
  { href := some "/orgs/1/sec_policy/draft/ip_lists/2"
    name := "Zscaler IPs"
    description := "Zscaler IP ranges - Auto-updated"
    ip_ranges := some [⟨some "1.1.1.0/24"⟩, ⟨some "1.1.1.0/24"⟩] }

/-- An IPList as returned by a successful create or re-fetch. -/
def iplistFresh : IPList :=
  { href := some "/orgs/1/sec_policy/draft/ip_lists/3"
    name := "Zscaler IPs"
    description := "Zscaler IP ranges - Auto-updated"
    ip_ranges := some [⟨some "4.4.4.0/24"⟩] }

/-- Environment whose lookup finds `iplistSample`; no other call succeeds. -/
def envMatchSame : PCEEnv :=
  { searchResult := some [iplistSample]
    updateResult := none
    refetchResult := none
    createResult := none
    provisionResult := none }

/-- Environment whose lookup finds nothing; create succeeds, provisioning
raises. -/
def envNoMatch : PCEEnv :=
  { searchResult := some []
    updateResult := none
    refetchResult := none
    createResult := some iplistFresh
    provisionResult := none }

/-- Environment whose lookup finds `iplistSample`; update and re-fetch
succeed (the update call itself returning `None`), provisioning succeeds. -/
def envUpdate : PCEEnv :=
  { searchResult := some [iplistSample]
    updateResult := some none
    refetchResult := some iplistFresh
    createResult := none
    provisionResult := some ⟨2, 5⟩ }

/-- Environment whose lookup finds `iplistDup`; update and re-fetch
succeed. -/
def envDup : PCEEnv :=
  { searchResult := some [iplistDup]
    updateResult := some none
    refetchResult := some iplistFresh
    createResult := none
    provisionResult := none }

/-! ## Helper lemmas -/

theorem compare_eq_false_iff (existing_ip_ranges : List IPRange)
    (new_ip_ranges : List String) :
    compare_ip_ranges existing_ip_ranges new_ip_ranges = false
      ↔ existingIps existing_ip_ranges = newIps new_ip_ranges := by
  simp [compare_ip_ranges]

theorem extract_eq (rs : List IPRange) (A : List String)
    (hA : rs.map IPRange.from_ip = A.map some) (hne : ∀ s ∈ A, s ≠ "") :
    (rs.filter fun r => truthyIp r.from_ip).filterMap (fun r => r.from_ip) = A := by
  induction rs generalizing A with
  | nil =>
    cases A with
    | nil => rfl
    | cons a as => simp at hA
  | cons r rs2 ih =>
    cases A with
    | nil => simp at hA
    | cons a as =>
      simp only [List.map_cons, List.cons.injEq] at hA
      obtain ⟨h1, h2⟩ := hA
      have hane : a ≠ "" := hne a (by simp)
      have htail : ∀ s ∈ as, s ≠ "" := fun s hs => hne s (by simp [hs])
      have htr : truthyIp (some a) = true := by simp [truthyIp, hane]
      simp [List.filter_cons, h1, htr, List.filterMap_cons, ih as h2 htail]

/-! ## Claims -/

/-- C1 is false as universally stated: a stored range object whose
`from_ip` is the empty string contributes a value to the list A of
`from_ip` values, but the code filters it out before comparing, so against
an empty new list the comparison reports unchanged even though
`sorted(A) != sorted(B)`; the diagnostic `removed` set is empty rather than
`set(A) - set(B) = set with the empty string`. -/
theorem C1_counterexample :
    compare_ip_ranges [⟨some ""⟩] [] = false ∧
    sortStr [""] ≠ sortStr ([] : List String) ∧
    diffRemoved [⟨some ""⟩] [] = ∅ := by
  refine ⟨by decide, by decide, by decide⟩

/-- C1 (amended): for every list of existing range objects whose `from_ip`
values are all present and non-empty — A being those values — and every
list of new range strings B, the comparison returns
`changed = (sorted(A) != sorted(B))`, and the diagnostic diff satisfies
`added = set(B) - set(A)` and `removed = set(A) - set(B)`. -/
theorem C1_compare_and_diff (existing_ip_ranges : List IPRange)
    (new_ip_ranges A : List String)
    (hA : existing_ip_ranges.map IPRange.from_ip = A.map some)
    (hne : ∀ s ∈ A, s ≠ "") :
    compare_ip_ranges existing_ip_ranges new_ip_ranges
      = decide (sortStr A ≠ sortStr new_ip_ranges) ∧
    diffAdded existing_ip_ranges new_ip_ranges
      = new_ip_ranges.toFinset \ A.toFinset ∧
    diffRemoved existing_ip_ranges new_ip_ranges
      = A.toFinset \ new_ip_ranges.toFinset := by
  have hx : existingIps existing_ip_ranges = sortStr A := by
    rw [existingIps, extract_eq existing_ip_ranges A hA hne]
  refine ⟨?_, ?_, ?_⟩
  · rw [compare_ip_ranges, hx]; rfl
  · rw [diffAdded, hx, sortStr_toFinset, newIps, sortStr_toFinset]
  · rw [diffRemoved, hx, sortStr_toFinset, newIps, sortStr_toFinset]

/-- Witness for C1 on the spec's scenario example: existing ranges
1.1.1.0/24 and 2.2.2.0/24, fetched ranges 2.2.2.0/24 and 3.3.3.0/24. -/
theorem C1_compare_and_diff_witness :
    compare_ip_ranges [⟨some "1.1.1.0/24"⟩, ⟨some "2.2.2.0/24"⟩]
        ["2.2.2.0/24", "3.3.3.0/24"]
      = decide (sortStr ["1.1.1.0/24", "2.2.2.0/24"]
          ≠ sortStr ["2.2.2.0/24", "3.3.3.0/24"]) ∧
    diffAdded [⟨some "1.1.1.0/24"⟩, ⟨some "2.2.2.0/24"⟩]
        ["2.2.2.0/24", "3.3.3.0/24"]
      = (["2.2.2.0/24", "3.3.3.0/24"] : List String).toFinset
          \ (["1.1.1.0/24", "2.2.2.0/24"] : List String).toFinset ∧
    diffRemoved [⟨some "1.1.1.0/24"⟩, ⟨some "2.2.2.0/24"⟩]
        ["2.2.2.0/24", "3.3.3.0/24"]
      = (["1.1.1.0/24", "2.2.2.0/24"] : List String).toFinset
          \ (["2.2.2.0/24", "3.3.3.0/24"] : List String).toFinset :=
  C1_compare_and_diff [⟨some "1.1.1.0/24"⟩, ⟨some "2.2.2.0/24"⟩]
    ["2.2.2.0/24", "3.3.3.0/24"] ["1.1.1.0/24", "2.2.2.0/24"]
    (by decide) (by decide)

/-- C2 is false as stated: a well-formed response whose body lacks the
`prefixes` field does not terminate the process; `data.get('prefixes', [])`
silently yields the empty list, which the fetch returns as a success with
no stderr diagnostic. -/
theorem C2_counterexample :
    fetch_zscaler_ips ⟨false, false, none⟩ = ⟨false, .ok []⟩ := rfl

/-- C2 (amended): every fetch whose HTTP transport fails (timeout,
connection error, non-success status) and every fetch whose body fails
JSON parsing terminates the process with exit status 1 and a diagnostic on
the error stream, returning no partial result; a well-formed response
lacking the `prefixes` field is instead treated as success with the empty
list. -/
theorem C2_fetch_error_contract (r : HttpResponse) :
    (r.transportError = true → fetch_zscaler_ips r = ⟨true, .error 1⟩) ∧
    (r.transportError = false → r.jsonError = true →
      fetch_zscaler_ips r = ⟨true, .error 1⟩) ∧
    (r.transportError = false → r.jsonError = false →
      fetch_zscaler_ips r = ⟨false, .ok (r.prefixes.getD [])⟩) := by
  refine ⟨fun h => ?_, fun h1 h2 => ?_, fun h1 h2 => ?_⟩ <;>
    simp [fetch_zscaler_ips, *]

/-- Witness for C2: a transport failure exits with status 1 and a stderr
diagnostic. -/
theorem C2_fetch_error_contract_witness :
    fetch_zscaler_ips ⟨true, false, none⟩ = ⟨true, .error 1⟩ :=
  (C2_fetch_error_contract ⟨true, false, none⟩).1 rfl

/-- C3: when the lookup finds a stored resource whose sorted existing range
values equal the sorted new range list, the reconcile step returns that
resource unchanged with `was_updated = false` and issues no create and no
update call (only the search).  As the model is stateless, the same
equation shows that a second reconcile run against a state already matching
the unchanged remote source again yields `was_updated = false` with zero
writes. -/
theorem C3_no_change_no_write (pce : PCEEnv) (iplist_name : String)
    (ip_ranges : List String) (x : IPList) (rest : List IPList)
    (hs : pce.searchResult = some (x :: rest))
    (heq : existingIps (x.ip_ranges.getD []) = newIps ip_ranges) :
    create_or_update_iplist pce iplist_name ip_ranges
      = ([.search iplist_name], .ok (x, false)) ∧
    writeCalls (create_or_update_iplist pce iplist_name ip_ranges).1 = [] := by
  have hc : compare_ip_ranges (x.ip_ranges.getD []) ip_ranges = false :=
    (compare_eq_false_iff _ _).mpr heq
  have hmain : create_or_update_iplist pce iplist_name ip_ranges
      = ([.search iplist_name], .ok (x, false)) := by
    simp [create_or_update_iplist, hs, hc]
  exact ⟨hmain, by rw [hmain]; simp [writeCalls, isWriteCall]⟩

/-- Witness for C3: a stored list already holding 1.1.1.0/24 and
2.2.2.0/24, fetched in the opposite order. -/
theorem C3_no_change_no_write_witness :
    create_or_update_iplist envMatchSame "Zscaler IPs"
        ["2.2.2.0/24", "1.1.1.0/24"]
      = ([.search "Zscaler IPs"], .ok (iplistSample, false)) ∧
    writeCalls (create_or_update_iplist envMatchSame "Zscaler IPs"
        ["2.2.2.0/24", "1.1.1.0/24"]).1 = [] :=
  C3_no_change_no_write envMatchSame "Zscaler IPs" ["2.2.2.0/24", "1.1.1.0/24"]
    iplistSample [] rfl (by decide)

/-- C4: in every run, the provision operation is invoked if and only if the
reconcile step returned `was_updated = true` (equivalently, the run
completed with exit status 0 reporting a change); in particular a run whose
fetched ranges equal the stored ranges issues no provision call. -/
theorem C4_provision_gating (pce : PCEEnv) (iplist_name : String)
    (ip_ranges : List String) :
    provisionCalls (main_run pce iplist_name ip_ranges).calls ≠ []
      ↔ (main_run pce iplist_name ip_ranges).result = .ok true := by
  rcases pce with ⟨sr, ur, rr, cr, pr⟩
  cases sr with
  | none =>
    simp [main_run, create_or_update_iplist, provisionCalls, isProvisionCall]
  | some iplists =>
    cases iplists with
    | nil =>
      cases cr with
      | none =>
        simp [main_run, create_or_update_iplist, provisionCalls, isProvisionCall]
      | some nl =>
        cases pr <;>
          simp [main_run, create_or_update_iplist, provision_policy_changes,
            provisionCalls, isProvisionCall]
    | cons x rest =>
      cases hc : compare_ip_ranges (x.ip_ranges.getD []) ip_ranges with
      | false =>
        simp [main_run, create_or_update_iplist, provisionCalls,
          isProvisionCall, hc]
      | true =>
        cases ur with
        | none =>
          simp [main_run, create_or_update_iplist, provisionCalls,
            isProvisionCall, hc]
        | some r0 =>
          cases rr with
          | none =>
            simp [main_run, create_or_update_iplist, provisionCalls,
              isProvisionCall, hc]
          | some u =>
            cases pr <;>
              simp [main_run, create_or_update_iplist, provision_policy_changes,
                provisionCalls, isProvisionCall, hc]

/-- C5: with zero matching resources the reconcile step issues exactly one
create call and no update call, and any returned result carries
`was_updated = true`; with one or more matching resources it never issues a
create call, every update call targets the first match's reference, and
the returned flag is the comparison against the first match's ranges (with
an absent collection read as empty), so even a match with absent or empty
ranges takes the update-decision path. -/
theorem C5_create_vs_update (pce : PCEEnv) (iplist_name : String)
    (ip_ranges : List String) :
    (pce.searchResult = some [] →
      ((create_or_update_iplist pce iplist_name ip_ranges).1.filter
          isCreateCall).length = 1 ∧
      ((create_or_update_iplist pce iplist_name ip_ranges).1.filter
          isUpdateCall).length = 0 ∧
      (∀ l b, (create_or_update_iplist pce iplist_name ip_ranges).2
          = .ok (l, b) → b = true)) ∧
    (∀ x rest, pce.searchResult = some (x :: rest) →
      ((create_or_update_iplist pce iplist_name ip_ranges).1.filter
          isCreateCall).length = 0 ∧
      (∀ href spec, PCECall.update href spec
          ∈ (create_or_update_iplist pce iplist_name ip_ranges).1 →
        href = x.href) ∧
      (∀ l b, (create_or_update_iplist pce iplist_name ip_ranges).2
          = .ok (l, b) →
        b = compare_ip_ranges (x.ip_ranges.getD []) ip_ranges)) := by
  constructor
  · intro hs
    cases hcr : pce.createResult with
    | none =>
      refine ⟨?_, ?_, ?_⟩
      · simp [create_or_update_iplist, hs, hcr, isCreateCall]
      · simp [create_or_update_iplist, hs, hcr, isUpdateCall]
      · intro l b h
        simp [create_or_update_iplist, hs, hcr] at h
    | some nl =>
      refine ⟨?_, ?_, ?_⟩
      · simp [create_or_update_iplist, hs, hcr, isCreateCall]
      · simp [create_or_update_iplist, hs, hcr, isUpdateCall]
      · intro l b h
        simp [create_or_update_iplist, hs, hcr] at h
        exact h.2
  · intro x rest hs
    cases hc : compare_ip_ranges (x.ip_ranges.getD []) ip_ranges with
    | false =>
      refine ⟨?_, ?_, ?_⟩
      · simp [create_or_update_iplist, hs, hc, isCreateCall]
      · intro href spec hmem
        simp [create_or_update_iplist, hs, hc] at hmem
      · intro l b h
        simp [create_or_update_iplist, hs, hc] at h
        exact h.2
    | true =>
      cases hur : pce.updateResult with
      | none =>
        refine ⟨?_, ?_, ?_⟩
        · simp [create_or_update_iplist, hs, hc, hur, isCreateCall]
        · intro href spec hmem
          simp [create_or_update_iplist, hs, hc, hur] at hmem
          exact hmem.1
        · intro l b h
          simp [create_or_update_iplist, hs, hc, hur] at h
      | some r0 =>
        cases hrr : pce.refetchResult with
        | none =>
          refine ⟨?_, ?_, ?_⟩
          · simp [create_or_update_iplist, hs, hc, hur, hrr, isCreateCall]
          · intro href spec hmem
            simp [create_or_update_iplist, hs, hc, hur, hrr] at hmem
            exact hmem.1
          · intro l b h
            simp [create_or_update_iplist, hs, hc, hur, hrr] at h
        | some u =>
          refine ⟨?_, ?_, ?_⟩
          · simp [create_or_update_iplist, hs, hc, hur, hrr, isCreateCall]
          · intro href spec hmem
            simp [create_or_update_iplist, hs, hc, hur, hrr] at hmem
            exact hmem.1
          · intro l b h
            simp [create_or_update_iplist, hs, hc, hur, hrr] at h
            exact h.2

/-- Witness for C5: with no matching resource and a succeeding create call,
exactly one create and zero update calls are issued. -/
theorem C5_create_vs_update_witness :
    ((create_or_update_iplist envNoMatch "Zscaler IPs" ["4.4.4.0/24"]).1.filter
        isCreateCall).length = 1 ∧
    ((create_or_update_iplist envNoMatch "Zscaler IPs" ["4.4.4.0/24"]).1.filter
        isUpdateCall).length = 0 :=
  ⟨((C5_create_vs_update envNoMatch "Zscaler IPs" ["4.4.4.0/24"]).1 rfl).1,
   ((C5_create_vs_update envNoMatch "Zscaler IPs" ["4.4.4.0/24"]).1 rfl).2.1⟩

/-- C6: on the update path (match found, comparison reports a change) the
reconcile step issues an update against the existing resource's reference
carrying the requested name, the fixed descriptive label and the full new
range set, then re-fetches by the same reference and returns the re-fetched
resource — regardless of the update call's own return value — with
`was_updated = true`; a failing update or a failing re-fetch exits with
status 1. -/
theorem C6_update_path (pce : PCEEnv) (iplist_name : String)
    (ip_ranges : List String) (x : IPList) (rest : List IPList)
    (hs : pce.searchResult = some (x :: rest))
    (hc : compare_ip_ranges (x.ip_ranges.getD []) ip_ranges = true) :
    (∀ r u, pce.updateResult = some r → pce.refetchResult = some u →
      create_or_update_iplist pce iplist_name ip_ranges
        = ([.search iplist_name,
            .update x.href (iplistPayload iplist_name ip_ranges),
            .getByRef x.href], .ok (u, true))) ∧
    (pce.updateResult = none →
      (create_or_update_iplist pce iplist_name ip_ranges).2 = .error 1) ∧
    (∀ r, pce.updateResult = some r → pce.refetchResult = none →
      (create_or_update_iplist pce iplist_name ip_ranges).2 = .error 1) := by
  refine ⟨?_, ?_, ?_⟩
  · intro r u hur hrr
    simp [create_or_update_iplist, hs, hc, hur, hrr]
  · intro hur
    simp [create_or_update_iplist, hs, hc, hur]
  · intro r hur hrr
    simp [create_or_update_iplist, hs, hc, hur, hrr]

/-- Witness for C6: the spec's scenario — stored ranges 1.1.1.0/24 and
2.2.2.0/24, fetched ranges 2.2.2.0/24 and 3.3.3.0/24 — with a succeeding
update (returning `None`) and re-fetch. -/
theorem C6_update_path_witness :
    create_or_update_iplist envUpdate "Zscaler IPs"
        ["2.2.2.0/24", "3.3.3.0/24"]
      = ([.search "Zscaler IPs",
          .update iplistSample.href
            (iplistPayload "Zscaler IPs" ["2.2.2.0/24", "3.3.3.0/24"]),
          .getByRef iplistSample.href], .ok (iplistFresh, true)) :=
  ((C6_update_path envUpdate "Zscaler IPs" ["2.2.2.0/24", "3.3.3.0/24"]
      iplistSample [] rfl (by decide)).1) none iplistFresh rfl rfl

/-- C7: when the resource mutation succeeded (`was_updated = true`) but the
provisioning call raises, the error is reported to the error stream, no
exception propagates, and the run still completes with exit status 0
reporting success. -/
theorem C7_provision_best_effort (pce : PCEEnv) (iplist_name : String)
    (ip_ranges : List String) (calls : List PCECall) (l : IPList)
    (hok : create_or_update_iplist pce iplist_name ip_ranges
      = (calls, .ok (l, true)))
    (hp : pce.provisionResult = none) :
    (main_run pce iplist_name ip_ranges).result = .ok true ∧
    (main_run pce iplist_name ip_ranges).provisionErrDiag = true := by
  simp [main_run, hok, provision_policy_changes, hp]

/-- Witness for C7: a successful create followed by a failing provision
still exits 0, with the provision error reported to stderr. -/
theorem C7_provision_best_effort_witness :
    (main_run envNoMatch "Zscaler IPs" ["4.4.4.0/24"]).result = .ok true ∧
    (main_run envNoMatch "Zscaler IPs" ["4.4.4.0/24"]).provisionErrDiag = true :=
  C7_provision_best_effort envNoMatch "Zscaler IPs" ["4.4.4.0/24"]
    [.search "Zscaler IPs",
     .create (iplistPayload "Zscaler IPs" ["4.4.4.0/24"])]
    iplistFresh rfl rfl

/-- C8: the comparison yields the same result for any permutation of the
new range list, and the IPRange objects built from a permuted fetched list
are a permutation of the originals — reordering the fetched sequence
changes neither the create/update decision nor the content of the stored
range set. -/
theorem C8_order_insensitive (existing_ip_ranges : List IPRange)
    (new_ip_ranges new_ip_ranges2 : List String)
    (h : new_ip_ranges.Perm new_ip_ranges2) :
    compare_ip_ranges existing_ip_ranges new_ip_ranges
      = compare_ip_ranges existing_ip_ranges new_ip_ranges2 ∧
    (ip_ranges_objects new_ip_ranges).Perm (ip_ranges_objects new_ip_ranges2) := by
  constructor
  · simp [compare_ip_ranges, newIps, sortStr_eq_of_perm h]
  · exact h.map _

/-- Witness for C8: the two orderings of the same two fetched ranges. -/
theorem C8_order_insensitive_witness :
    compare_ip_ranges [⟨some "1.1.1.0/24"⟩]
        ["2.2.2.0/24", "3.3.3.0/24"]
      = compare_ip_ranges [⟨some "1.1.1.0/24"⟩]
        ["3.3.3.0/24", "2.2.2.0/24"] ∧
    (ip_ranges_objects ["2.2.2.0/24", "3.3.3.0/24"]).Perm
      (ip_ranges_objects ["3.3.3.0/24", "2.2.2.0/24"]) :=
  C8_order_insensitive [⟨some "1.1.1.0/24"⟩]
    ["2.2.2.0/24", "3.3.3.0/24"] ["3.3.3.0/24", "2.2.2.0/24"] (by decide)

/-- C9: range objects with an absent or empty `from_ip` are excluded from
the comparison — comparing a list of range objects equals comparing its
truthy-filtered sublist — and a stored resource all of whose range objects
have absent or empty `from_ip` values compares as unchanged against an
empty fetched list. -/
theorem C9_untruthy_excluded (existing_ip_ranges : List IPRange)
    (new_ip_ranges : List String) :
    compare_ip_ranges existing_ip_ranges new_ip_ranges
      = compare_ip_ranges
          (existing_ip_ranges.filter fun r => truthyIp r.from_ip)
          new_ip_ranges ∧
    ((∀ r ∈ existing_ip_ranges, truthyIp r.from_ip = false) →
      compare_ip_ranges existing_ip_ranges [] = false) := by
  constructor
  · simp [compare_ip_ranges, existingIps, List.filter_filter]
  · intro hall
    have hfil : existing_ip_ranges.filter (fun r => truthyIp r.from_ip) = [] :=
      List.filter_eq_nil_iff.mpr (by simpa using hall)
    rw [compare_eq_false_iff, existingIps, hfil]
    rfl

/-- Witness for C9: a resource whose range objects carry `None` and the
empty string compares as unchanged against an empty fetched list, and the
comparison coincides with the one on its (empty) truthy-filtered sublist. -/
theorem C9_untruthy_excluded_witness :
    compare_ip_ranges [⟨none⟩, ⟨some ""⟩] []
      = compare_ip_ranges
          (([⟨none⟩, ⟨some ""⟩] : List IPRange).filter
            fun r => truthyIp r.from_ip) [] ∧
    compare_ip_ranges [⟨none⟩, ⟨some ""⟩] [] = false :=
  ⟨(C9_untruthy_excluded [⟨none⟩, ⟨some ""⟩] []).1,
   (C9_untruthy_excluded [⟨none⟩, ⟨some ""⟩] []).2 (by decide)⟩

/-- C10: for an existing list holding 1.1.1.0/24 twice and a new list
holding it once, the underlying sets agree while the sorted lists differ,
so the comparison reports a change with both diagnostic diff sets empty,
and a run in that state issues an update call. -/
theorem C10_duplicate_multiplicity :
    compare_ip_ranges [⟨some "1.1.1.0/24"⟩, ⟨some "1.1.1.0/24"⟩]
        ["1.1.1.0/24"] = true ∧
    (existingIps [⟨some "1.1.1.0/24"⟩, ⟨some "1.1.1.0/24"⟩]).toFinset
      = (newIps ["1.1.1.0/24"]).toFinset ∧
    existingIps [⟨some "1.1.1.0/24"⟩, ⟨some "1.1.1.0/24"⟩]
      ≠ newIps ["1.1.1.0/24"] ∧
    diffAdded [⟨some "1.1.1.0/24"⟩, ⟨some "1.1.1.0/24"⟩] ["1.1.1.0/24"] = ∅ ∧
    diffRemoved [⟨some "1.1.1.0/24"⟩, ⟨some "1.1.1.0/24"⟩] ["1.1.1.0/24"] = ∅ ∧
    (create_or_update_iplist envDup "Zscaler IPs" ["1.1.1.0/24"]).1.filter
        isUpdateCall ≠ [] := by
  refine ⟨by decide, by decide, by decide, by decide, by decide, by decide⟩
